import Mathlib

/-!
# Workout Routine Parsing & Exercise Resolution Engine — a shallow embedding

This file embeds the core of `src/workout_parser.py` (the data model
`SetConfig` / `ExerciseConfig` / `RoutineConfig`, the wire-format
conversion, the catalog index and three-tier name resolver, the regex
driven text extractor, the JSON extractor, the format-detecting `parse`
entry point, the validator and the preview formatter) as executable Lean
definitions, and proves the specified properties about them.

Modelling conventions:
* Python `int` is `Int`, Python `float` is `ℚ` (the values handled here —
  decimal literals captured from text, JSON numbers — are exact; no float
  rounding is exercised by any property below).
* Python `None`-able fields are `Option _`; Python truthiness of the types
  that actually occur is made explicit (`none` and `some 0` / `some ""`
  are falsy).
* Python dicts appear in two roles: decoded JSON objects (association
  lists, last binding wins as `json.loads` keeps the last duplicate key)
  and the name index (insertion-ordered association list where assigning
  to an existing key updates it in place).
* Fallible Python code (uncaught `TypeError` / `AttributeError` paths in
  `parse_json`) is modelled with `Except`.  Fields that Python would
  silently store with an unexpected dynamic type are modelled as errors;
  no property below depends on such inputs.
* The three `re` patterns of the source are transcribed node by node into
  a small regular-expression AST, executed by a backtracking matcher that
  mirrors CPython's preference order (leftmost start, left alternative
  first, greedy long-first / lazy short-first), `re.MULTILINE` `^` and
  `re.IGNORECASE` included.
-/

/-! ## Python string primitives -/

/-- Python `\s` / `str.strip` whitespace (ASCII and the Unicode
whitespace code points). -/
def isPySpace (c : Char) : Bool :=
  let n := c.toNat
  decide (n = 32 ∨ (9 ≤ n ∧ n ≤ 13) ∨ (28 ≤ n ∧ n ≤ 31) ∨ n = 133 ∨ n = 160 ∨
    n = 5760 ∨ (8192 ≤ n ∧ n ≤ 8202) ∨ n = 8232 ∨ n = 8233 ∨ n = 8239 ∨
    n = 8287 ∨ n = 12288)

/-- Python `str.lower` on the character ranges this program manipulates
(ASCII letters and the Latin-1 letters `À`–`ÿ` accepted by the source's
regexes). -/
def pyLowerChar (c : Char) : Char :=
  let n := c.toNat
  if 65 ≤ n ∧ n ≤ 90 then Char.ofNat (n + 32)
  else if 192 ≤ n ∧ n ≤ 222 ∧ n ≠ 215 then Char.ofNat (n + 32)
  else c

/-- Python `str.upper` on the same ranges (used only for
`re.IGNORECASE` class matching). -/
def pyUpperChar (c : Char) : Char :=
  let n := c.toNat
  if 97 ≤ n ∧ n ≤ 122 then Char.ofNat (n - 32)
  else if 224 ≤ n ∧ n ≤ 254 ∧ n ≠ 247 then Char.ofNat (n - 32)
  else c

/-- Python `str.lower`. -/
def pyLower (s : String) : String := ⟨s.data.map pyLowerChar⟩

/-- Python `str.strip()` (no argument: strip whitespace on both ends). -/
def pyStrip (s : String) : String :=
  ⟨((s.data.dropWhile isPySpace).reverse.dropWhile isPySpace).reverse⟩

/-- Helper of `pySplitWs`: accumulate the current word (reversed) and the
words found so far. -/
def splitWsAux : List Char → List Char → List String → List String
  | [], cur, acc => if cur.isEmpty then acc else acc ++ [⟨cur.reverse⟩]
  | c :: cs, cur, acc =>
    if isPySpace c then
      if cur.isEmpty then splitWsAux cs [] acc
      else splitWsAux cs [] (acc ++ [⟨cur.reverse⟩])
    else splitWsAux cs (c :: cur) acc

/-- Python `str.split()` (no argument: split on whitespace runs,
discarding empty pieces). -/
def pySplitWs (s : String) : List String := splitWsAux s.data [] []

/-- Value of a run of ASCII digits. -/
def digitsVal (l : List Char) : Nat :=
  l.foldl (fun a c => a * 10 + (c.toNat - 48)) 0

/-- Python `int()` on the digit-only strings captured by the `\d+`
groups. -/
def pyIntOfDigits (s : String) : Int := (digitsVal s.data : Nat)

/-- Python `float()` on strings of the shape `\d+([.]\d+)?` (the captured
weight after `','` → `'.'` replacement); exact as a rational. -/
def pyFloat (s : String) : ℚ :=
  let p := s.data.span (fun c => c != '.')
  match p.2 with
  | [] => (digitsVal p.1 : ℚ)
  | _ :: fp => (digitsVal p.1 : ℚ) + (digitsVal fp : ℚ) / ((10 : ℚ) ^ fp.length)

/-- Python `str.replace(",", ".")`. -/
def replaceCommaDot (s : String) : String :=
  ⟨s.data.map (fun c => if c = ',' then '.' else c)⟩

/-- Python `a in b` on strings (contiguous substring test). -/
def strIn (a b : String) : Bool := decide (a.data <:+: b.data)

/-- Python truthiness of an `Optional[int]`. -/
def optIntTruthy : Option Int → Bool
  | none => false
  | some n => n != 0

/-- Python truthiness of an `Optional[str]` (also used for plain `str`
via `some`). -/
def optStrTruthy : Option String → Bool
  | none => false
  | some s => s != ""

/-! ## Data model (`SetConfig`, `ExerciseConfig`, `RoutineConfig`) -/

/-- The `SetConfig` of the source: one configured set. -/
structure SetConfig where
  type : String := "normal"
  weight_kg : Option ℚ := none
  reps : Option Int := none
  rep_range_start : Option Int := none
  rep_range_end : Option Int := none
  rest_seconds : Option Int := none
  distance_meters : Option ℚ := none
  duration_seconds : Option Int := none
  deriving DecidableEq, Repr

/-- The dictionary produced by `SetConfig.to_api_format` (the `rep_range`
key is optional in the source; `custom_metric` is always `None`). -/
structure ApiSet where
  type : String
  weight_kg : Option ℚ
  reps : Option Int
  distance_meters : Option ℚ
  duration_seconds : Option Int
  custom_metric : Option Unit
  rep_range : Option (Int × Int)
  deriving DecidableEq, Repr

/-- The `SetConfig.to_api_format` of the source.  The branch conditions are
Python truthiness tests (`if self.rep_range_start and self.rep_range_end`
/ `elif self.reps`). -/
def SetConfig.to_api_format (s : SetConfig) : ApiSet :=
  let rr : Option (Int × Int) :=
    if optIntTruthy s.rep_range_start && optIntTruthy s.rep_range_end then
      some (s.rep_range_start.getD 0, s.rep_range_end.getD 0)
    else if optIntTruthy s.reps then
      some (max 1 (s.reps.getD 0 - 2), s.reps.getD 0 + 2)
    else none
  { type := s.type, weight_kg := s.weight_kg, reps := s.reps,
    distance_meters := s.distance_meters,
    duration_seconds := s.duration_seconds,
    custom_metric := none, rep_range := rr }

/-- The `ExerciseConfig` of the source. -/
structure ExerciseConfig where
  name : String
  exercise_template_id : Option String := none
  sets : List SetConfig := []
  rest_seconds : Int := 60
  notes : Option String := none
  superset_id : Option Int := none
  deriving DecidableEq, Repr

/-- The `RoutineConfig` of the source. -/
structure RoutineConfig where
  title : String
  exercises : List ExerciseConfig := []
  folder_id : Option String := none
  notes : Option String := none
  deriving DecidableEq, Repr

/-! ## C1 — default rep-range derivation in the wire conversion -/

/-- C1 counterexample input: a set with scalar `reps = 0` and no explicit
range.  Python's `elif self.reps:` is a truthiness test, so `reps = 0`
skips the default-range derivation entirely. -/
def zeroRepSet : SetConfig := { reps := some 0 }

/-- Claim C1, counterexample.  The claim says every non-negative `reps = R`
with no explicit range yields `rep_range = {start: max(1, R-2), end: R+2}`;
at `R = 0` the claimed output would be `{start: 1, end: 2}`, but the code
emits no `rep_range` field at all. -/
theorem c1_counterexample :
    zeroRepSet.to_api_format.rep_range = none ∧ zeroRepSet.reps = some 0 := by
  constructor <;> rfl

/-- Claim C1, amended.  For every `SetConfig` whose `rep_range_start` and
`rep_range_end` are absent and whose scalar `reps` equals a *positive* R,
`to_api_format` produces `rep_range = {start: max(1, R-2), end: R+2}`. -/
theorem c1_default_rep_range (ty : String) (w dm : Option ℚ)
    (rs du : Option Int) (R : Int) (hR : 0 < R) :
    (SetConfig.to_api_format
      { type := ty, weight_kg := w, reps := some R,
        rep_range_start := none, rep_range_end := none,
        rest_seconds := rs, distance_meters := dm,
        duration_seconds := du }).rep_range
      = some (max 1 (R - 2), R + 2) := by
  simp [SetConfig.to_api_format, optIntTruthy, Option.getD]
  intro h
  omega

/-- Claim C1 witness: at `R = 1` the derived range is `[1, 3]`
(`max(1, 1-2) = 1`). -/
theorem c1_default_rep_range_witness :
    (SetConfig.to_api_format { reps := some 1 }).rep_range = some (1, 3) := by
  have h := c1_default_rep_range "normal" none none none none 1 (by norm_num)
  simpa using h

/-! ## Decoded JSON values

`json.loads` either raises `JSONDecodeError` (modelled as `none` at the
use sites) or yields a value of this type.  Integral numbers and other
numbers are separated because the source tests `isinstance(x, int)`;
`jbool` is kept distinct (Python `bool` is an `int` subclass, handled
where the source's `isinstance` check is modelled). -/

inductive Json where
  | jnull : Json
  | jbool : Bool → Json
  | jint : Int → Json
  | jnum : ℚ → Json
  | jstr : String → Json
  | jarr : List Json → Json
  | jobj : List (String × Json) → Json

/-- Python `dict.get(k)` on a decoded JSON object: `json.loads` keeps the
last duplicate key, so the last binding wins. -/
def jLookup (o : List (String × Json)) (k : String) : Option Json :=
  ((o.filter (fun p => p.1 == k)).getLast?).map (·.2)

/-! ## Catalog index (`_build_name_index`) and resolver (`find_exercise_id`) -/

/-- Errors of uncaught Python exception paths. -/
inductive PyErr where
  | typeError : PyErr
  | attrError : PyErr
  deriving DecidableEq, Repr

/-- Python `dict[k] = v` on an insertion-ordered association list: an
existing key keeps its position and gets the new value, a new key is
appended. -/
def dictSet (d : List (String × String)) (k v : String) :
    List (String × String) :=
  bif d.any (fun p => p.1 == k) then
    d.map (fun p => bif p.1 == k then (k, v) else p)
  else d ++ [(k, v)]

/-- One iteration of the `_build_name_index` loop: read
`template.get("title", "")` (an `AttributeError` if the template record
is not a dict, like Python's `.get` on a non-dict; a non-string title
would fail at `.lower()`), fold it, and index it when non-empty. -/
def indexStep (acc : List (String × String)) (tid : String) (tmpl : Json) :
    Except PyErr (List (String × String)) :=
  match tmpl with
  | Json.jobj o =>
    match (jLookup o "title").getD (Json.jstr "") with
    | Json.jstr s =>
      let name := pyStrip (pyLower s)
      .ok (bif name == "" then acc else dictSet acc name tid)
    | _ => .error .attrError
  | _ => .error .attrError

/-- The `_build_name_index` loop over the catalog in insertion order,
threading the index being built. -/
def buildIndexAux : List (String × Json) → List (String × String) →
    Except PyErr (List (String × String))
  | [], acc => .ok acc
  | (tid, t) :: rest, acc =>
    match indexStep acc tid t with
    | .ok acc' => buildIndexAux rest acc'
    | .error e => .error e

/-- The `WorkoutParser._build_name_index`: the name→id index constructed once
from `exercise_templates`. -/
def build_name_index (templates : List (String × Json)) :
    Except PyErr (List (String × String)) :=
  buildIndexAux templates []

/-- Size of the intersection of two Python `set`s of words
(`len(name_words & template_words)`). -/
def interCount (a b : List String) : Nat :=
  (a.dedup.filter (fun w => w ∈ b)).length

/-- The `WorkoutParser.find_exercise_id`: exact lookup, then first
substring match in index order, then best (strictly improving)
token-overlap score with threshold 1. -/
def find_exercise_id (idx : List (String × String)) (name : String) :
    Option String :=
  let nl := pyStrip (pyLower name)
  match idx.lookup nl with
  | some id => some id
  | none =>
    match idx.find? (fun p => strIn nl p.1 || strIn p.1 nl) with
    | some p => some p.2
    | none =>
      let nw := pySplitWs nl
      let best := idx.foldl (fun (b : Option String × Nat) p =>
        let score := interCount nw (pySplitWs p.1)
        if score > b.2 then (some p.2, score) else b) (none, 0)
      if best.2 ≥ 1 then best.1 else none

/-! ## C3 — exact match has highest priority -/

/-- Claim C3.  For every catalog and query: when the case-folded, trimmed
query is an indexed name, `find_exercise_id` returns that name's
identifier — the result is the exact-lookup result, so the substring and
token-overlap tiers cannot influence it. -/
theorem c3_exact_match_wins (catalog : List (String × Json))
    (idx : List (String × String)) (name id : String)
    (hbuild : build_name_index catalog = .ok idx)
    (hlook : idx.lookup (pyStrip (pyLower name)) = some id) :
    find_exercise_id idx name = some id := by
  unfold find_exercise_id
  simp only [hlook]

/-- Claim C3 witness: a one-entry catalog, queried with a differently-cased,
padded spelling of the indexed name. -/
theorem c3_exact_match_wins_witness :
    find_exercise_id [("supino reto", "ex1")] " SUPINO Reto " = some "ex1" := by
  exact c3_exact_match_wins [("ex1", Json.jobj [("title", Json.jstr "Supino Reto")])]
    [("supino reto", "ex1")] " SUPINO Reto " "ex1" rfl rfl

/-! ## C10 — duplicate folded names: last catalog entry wins -/

/-- The folded, indexed name an entry contributes (`none` when the entry
would contribute nothing or would fault). -/
def foldedTitle (t : Json) : Option String :=
  match t with
  | Json.jobj o =>
    match (jLookup o "title").getD (Json.jstr "") with
    | Json.jstr s =>
      let m := pyStrip (pyLower s)
      bif m == "" then none else some m
    | _ => none
  | _ => none

theorem beq_symm_false {a b : String} (h : (a == b) = false) :
    (b == a) = false := by
  simp only [beq_eq_false_iff_ne, ne_eq] at h ⊢
  exact fun he => h he.symm

theorem lookup_map_replace_self (k v : String)
    (rest : List (String × String))
    (hany : rest.any (fun p => p.1 == k) = true) :
    (rest.map (fun p => bif p.1 == k then (k, v) else p)).lookup k
      = some v := by
  induction rest with
  | nil => simp at hany
  | cons p rest ih =>
    obtain ⟨a, b⟩ := p
    simp only [List.any_cons, Bool.or_eq_true] at hany
    cases hp : (a == k) with
    | true =>
      simp only [List.map_cons, hp, Bool.cond_true, List.lookup_cons,
        beq_self_eq_true]
    | false =>
      have hrest : rest.any (fun p => p.1 == k) = true := by
        rcases hany with h | h
        · rw [hp] at h; exact absurd h (by simp)
        · exact h
      simp only [List.map_cons, hp, Bool.cond_false, List.lookup_cons,
        beq_symm_false hp]
      exact ih hrest

theorem lookup_append_self (k v : String) (rest : List (String × String))
    (hany : rest.any (fun p => p.1 == k) = false) :
    (rest ++ [(k, v)]).lookup k = some v := by
  induction rest with
  | nil => simp [List.lookup_cons]
  | cons p rest ih =>
    obtain ⟨a, b⟩ := p
    simp only [List.any_cons, Bool.or_eq_false_iff] at hany
    simp only [List.cons_append, List.lookup_cons, beq_symm_false hany.1]
    exact ih hany.2

theorem lookup_map_replace_other (k v m : String)
    (hm : (m == k) = false) (rest : List (String × String)) :
    (rest.map (fun p => bif p.1 == k then (k, v) else p)).lookup m
      = rest.lookup m := by
  induction rest with
  | nil => rfl
  | cons p rest ih =>
    obtain ⟨a, b⟩ := p
    cases hp : (a == k) with
    | true =>
      have ha : a = k := by simpa using hp
      subst ha
      simp only [List.map_cons, beq_self_eq_true, Bool.cond_true,
        List.lookup_cons, hm]
      exact ih
    | false =>
      simp only [List.map_cons, hp, Bool.cond_false, List.lookup_cons]
      cases hma : (m == a) with
      | true => rfl
      | false => exact ih

theorem lookup_append_other (k v m : String) (hm : (m == k) = false)
    (rest : List (String × String)) :
    (rest ++ [(k, v)]).lookup m = rest.lookup m := by
  induction rest with
  | nil => simp [List.lookup_cons, hm]
  | cons p rest ih =>
    obtain ⟨a, b⟩ := p
    simp only [List.cons_append, List.lookup_cons]
    cases hma : (m == a) with
    | true => rfl
    | false => exact ih

theorem dictSet_lookup_self (d : List (String × String)) (k v : String) :
    (dictSet d k v).lookup k = some v := by
  unfold dictSet
  cases hany : d.any (fun p => p.1 == k) with
  | true =>
    simp only [Bool.cond_true]
    exact lookup_map_replace_self k v d hany
  | false =>
    simp only [Bool.cond_false]
    exact lookup_append_self k v d hany

theorem dictSet_lookup_other (d : List (String × String)) (k v m : String)
    (hm : m ≠ k) : (dictSet d k v).lookup m = d.lookup m := by
  have hmk : (m == k) = false := by simpa using hm
  unfold dictSet
  cases hany : d.any (fun p => p.1 == k) with
  | true =>
    simp only [Bool.cond_true]
    exact lookup_map_replace_other k v m hmk d
  | false =>
    simp only [Bool.cond_false]
    exact lookup_append_other k v m hmk d

theorem buildIndexAux_append (a b : List (String × Json))
    (acc : List (String × String)) :
    buildIndexAux (a ++ b) acc =
      match buildIndexAux a acc with
      | .ok acc' => buildIndexAux b acc'
      | .error e => .error e := by
  induction a generalizing acc with
  | nil => simp [buildIndexAux]
  | cons p t ih =>
    simp only [List.cons_append, buildIndexAux]
    cases indexStep acc p.1 p.2 with
    | ok acc' => exact ih acc'
    | error e => rfl

theorem buildIndexAux_lookup_preserve (l : List (String × Json))
    (acc idx : List (String × String)) (n : String)
    (h : buildIndexAux l acc = .ok idx)
    (hl : ∀ p ∈ l, foldedTitle p.2 ≠ some n) :
    idx.lookup n = acc.lookup n := by
  induction l generalizing acc with
  | nil =>
    simp only [buildIndexAux] at h
    cases h
    rfl
  | cons p rest ih =>
    obtain ⟨tid, tj⟩ := p
    have hft := hl (tid, tj) (List.mem_cons_self _ _)
    simp only [buildIndexAux] at h
    have hrec := fun acc' (h' : buildIndexAux rest acc' = .ok idx) =>
      ih acc' h' (fun q hq => hl q (List.mem_cons_of_mem _ hq))
    cases tj with
    | jobj o =>
      simp only [indexStep] at h
      simp only [foldedTitle] at hft
      cases hti : (jLookup o "title").getD (Json.jstr "") with
      | jstr s =>
        simp only [hti] at h hft
        cases hz : (pyStrip (pyLower s) == "") with
        | true =>
          simp only [hz, Bool.cond_true] at h
          exact hrec acc h
        | false =>
          simp only [hz, Bool.cond_false] at h
          simp only [hz, Bool.cond_false] at hft
          have hne : pyStrip (pyLower s) ≠ n := fun he => hft (by rw [he])
          rw [hrec _ h]
          exact dictSet_lookup_other acc (pyStrip (pyLower s)) tid n
            (fun he => hne he.symm)
      | jnull => simp only [hti] at h; exact Except.noConfusion h
      | jbool b => simp only [hti] at h; exact Except.noConfusion h
      | jint i => simp only [hti] at h; exact Except.noConfusion h
      | jnum q => simp only [hti] at h; exact Except.noConfusion h
      | jarr a => simp only [hti] at h; exact Except.noConfusion h
      | jobj o' => simp only [hti] at h; exact Except.noConfusion h
    | jnull => simp only [indexStep] at h; exact Except.noConfusion h
    | jbool b => simp only [indexStep] at h; exact Except.noConfusion h
    | jint i => simp only [indexStep] at h; exact Except.noConfusion h
    | jnum q => simp only [indexStep] at h; exact Except.noConfusion h
    | jstr s => simp only [indexStep] at h; exact Except.noConfusion h
    | jarr a => simp only [indexStep] at h; exact Except.noConfusion h

/-- Claim C10.  If two catalog entries fold to the same non-empty indexed
name `n`, and the second of them, `(tid2, t2)`, is the last entry with
that folded name, then the index built at construction maps `n` to
`tid2`, and an exact-match resolve of that display name returns `tid2` —
the earlier entry's identifier is unreachable by exact lookup. -/
theorem c10_last_duplicate_wins (l1 l2 : List (String × Json))
    (tid1 tid2 : String) (t1 : Json) (o2 : List (String × Json))
    (s2 n : String) (idx : List (String × String))
    (hmem : (tid1, t1) ∈ l1) (hdup : foldedTitle t1 = some n)
    (hs2 : (jLookup o2 "title").getD (Json.jstr "") = Json.jstr s2)
    (hn : pyStrip (pyLower s2) = n) (hne : n ≠ "")
    (hlast : ∀ p ∈ l2, foldedTitle p.2 ≠ some n)
    (hbuild : build_name_index (l1 ++ (tid2, Json.jobj o2) :: l2) = .ok idx) :
    idx.lookup n = some tid2 ∧ find_exercise_id idx s2 = some tid2 := by
  have hnb : (n == "") = false := by simpa using hne
  unfold build_name_index at hbuild
  rw [buildIndexAux_append] at hbuild
  revert hbuild
  cases h1 : buildIndexAux l1 [] with
  | error e => intro hbuild; exact Except.noConfusion hbuild
  | ok acc1 =>
    intro hbuild
    simp only [buildIndexAux, indexStep, hs2, hn, hnb, Bool.cond_false]
      at hbuild
    have hl : idx.lookup n = (dictSet acc1 n tid2).lookup n :=
      buildIndexAux_lookup_preserve l2 (dictSet acc1 n tid2) idx n hbuild hlast
    have hmain : idx.lookup n = some tid2 := by
      rw [hl]
      exact dictSet_lookup_self acc1 n tid2
    refine ⟨hmain, ?_⟩
    unfold find_exercise_id
    rw [hn]
    simp only [hmain]

/-- Claim C10 witness: a two-entry catalog whose entries fold to the same
name `"supino reto"`; the exact resolve of `"SUPINO RETO"` returns the
second identifier `"ex2"`. -/
theorem c10_last_duplicate_wins_witness :
    List.lookup "supino reto" [("supino reto", "ex2")] = some "ex2" ∧
      find_exercise_id [("supino reto", "ex2")] "SUPINO RETO" = some "ex2" := by
  exact c10_last_duplicate_wins
    [("ex1", Json.jobj [("title", Json.jstr "Supino Reto")])] []
    "ex1" "ex2" (Json.jobj [("title", Json.jstr "Supino Reto")])
    [("title", Json.jstr "SUPINO RETO")] "SUPINO RETO" "supino reto"
    [("supino reto", "ex2")]
    (List.mem_singleton.mpr rfl) rfl rfl rfl (by decide)
    (fun p hp => absurd hp (List.not_mem_nil p)) rfl

/-! ## A backtracking regex engine

The source compiles three `re` patterns (`EXERCISE_PATTERN`,
`SIMPLE_PATTERN`, `TITLE_PATTERN` with `re.IGNORECASE | re.MULTILINE`)
plus one inline fenced-code-block pattern (`re.DOTALL`).  They are
transcribed node by node into the `RE` type below and executed by a
backtracking matcher that returns candidate states in CPython's
preference order: left alternative first, greedy repetition longest
first, lazy repetition shortest first; the overall match is the first
candidate.  `bol` is `^` under `re.MULTILINE`. -/

inductive RE where
  | eps : RE
  | bol : RE
  | lit : Char → RE
  | cls : (Char → Bool) → RE
  | seq : RE → RE → RE
  | alt : RE → RE → RE
  | star : Bool → RE → RE
  | group : Nat → RE → RE

/-- The `?` (greedy) / `??` (lazy). -/
def reOpt (greedy : Bool) (a : RE) : RE :=
  if greedy then .alt a .eps else .alt .eps a

/-- The `+` (greedy) / `+?` (lazy). -/
def rePlus (greedy : Bool) (a : RE) : RE := .seq a (.star greedy a)

/-- Sequencing of a pattern list. -/
def reCat (l : List RE) : RE := l.foldr .seq .eps

/-- A literal string. -/
def reStr (s : String) : RE := reCat (s.data.map .lit)

/-- A matcher state: the character just before the current position (for
`^`), the remaining input, and the group captures so far. -/
structure MSt where
  prev : Option Char
  rem : List Char
  caps : List (Nat × String)

/-- Record group `i`'s captured text (a re-capture replaces the old). -/
def capSet (caps : List (Nat × String)) (i : Nat) (v : String) :
    List (Nat × String) :=
  caps.filter (fun p => p.1 ≠ i) ++ [(i, v)]

/-- Literal comparison under optional `re.IGNORECASE`. -/
def charEqCI (ic : Bool) (a c : Char) : Bool :=
  a == c || (ic && (pyLowerChar a == pyLowerChar c))

/-- Class membership under optional `re.IGNORECASE`. -/
def clsCI (ic : Bool) (p : Char → Bool) (a : Char) : Bool :=
  p a || (ic && (p (pyLowerChar a) || p (pyUpperChar a)))

/-- All ways a pattern can match a prefix of the state's remaining input,
in backtracking preference order.  The fuel decreases at every recursive
call (structural recursion, so the kernel can evaluate matches); the
generous fuel supplied by `reMatchAt` covers the pattern size plus the
repetition unrolling of the transcribed patterns, whose `star` bodies all
consume input, so it is never exhausted. -/
def mrun (ic : Bool) : Nat → RE → MSt → List MSt
  | 0, _, _ => []
  | fuel + 1, re, st =>
    match re with
    | .eps => [st]
    | .bol =>
      if st.prev == none || st.prev == some '\n' then [st] else []
    | .lit c =>
      match st.rem with
      | [] => []
      | a :: rest => if charEqCI ic a c then [⟨some a, rest, st.caps⟩] else []
    | .cls p =>
      match st.rem with
      | [] => []
      | a :: rest => if clsCI ic p a then [⟨some a, rest, st.caps⟩] else []
    | .seq x y => (mrun ic fuel x st).flatMap (mrun ic fuel y)
    | .alt x y => mrun ic fuel x st ++ mrun ic fuel y st
    | .star g x =>
      let cont := (mrun ic fuel x st).flatMap (fun st' =>
        if st'.rem.length < st.rem.length then mrun ic fuel (.star g x) st'
        else [st'])
      if g then cont ++ [st] else st :: cont
    | .group i x =>
      (mrun ic fuel x st).map (fun st' =>
        ⟨st'.prev, st'.rem,
          capSet st'.caps i ⟨st.rem.take (st.rem.length - st'.rem.length)⟩⟩)

/-- The preferred match of `re` at one position (CPython's backtracking
order), or `none`. -/
def reMatchAt (ic : Bool) (re : RE) (prev : Option Char) (rem : List Char) :
    Option MSt :=
  (mrun ic ((rem.length + 8) * 64) re ⟨prev, rem, []⟩).head?

/-- The `re.search`: try each start position left to right. -/
def reSearchAux (ic : Bool) (re : RE) : Option Char → List Char → Option MSt
  | prev, rem =>
    match reMatchAt ic re prev rem with
    | some st => some st
    | none =>
      match rem with
      | [] => none
      | c :: cs => reSearchAux ic re (some c) cs

/-- The `re.findall` scan: after a non-empty match continue at its end, after
an empty match or a failure advance one character.  Each row holds the
`ng` group captures, `""` for a group that did not participate. -/
def findallAux (ic : Bool) (re : RE) (ng : Nat) :
    Nat → Option Char → List Char → List (List String)
  | 0, _, _ => []
  | fuel + 1, prev, rem =>
    match reMatchAt ic re prev rem with
    | some st =>
      let row := (List.range ng).map (fun i => (st.caps.lookup (i + 1)).getD "")
      if st.rem.length < rem.length then
        row :: findallAux ic re ng fuel st.prev st.rem
      else
        match rem with
        | [] => [row]
        | c :: cs => row :: findallAux ic re ng fuel (some c) cs
    | none =>
      match rem with
      | [] => []
      | c :: cs => findallAux ic re ng fuel (some c) cs

/-- The `re.findall` on a string. -/
def reFindall (ic : Bool) (re : RE) (ng : Nat) (s : String) :
    List (List String) :=
  findallAux ic re ng (s.data.length + 1) none s.data

/-! ## The source's patterns, transcribed -/

/-- The `\d` (the inputs exercised here are ASCII digits). -/
def isDigitC (c : Char) : Bool := decide (48 ≤ c.toNat ∧ c.toNat ≤ 57)

/-- The `[A-Za-zÀ-ÿ\s\(\)]` — the exercise-name class. -/
def isNameChar (c : Char) : Bool :=
  decide ((65 ≤ c.toNat ∧ c.toNat ≤ 90) ∨ (97 ≤ c.toNat ∧ c.toNat ≤ 122) ∨
    (192 ≤ c.toNat ∧ c.toNat ≤ 255)) || isPySpace c || c == '(' || c == ')'

/-- The `[A-Za-zÀ-ÿ0-9\s\-–]` — the title class. -/
def isTitleChar (c : Char) : Bool :=
  decide ((65 ≤ c.toNat ∧ c.toNat ≤ 90) ∨ (97 ≤ c.toNat ∧ c.toNat ≤ 122) ∨
    (192 ≤ c.toNat ∧ c.toNat ≤ 255) ∨ (48 ≤ c.toNat ∧ c.toNat ≤ 57)) ||
    isPySpace c || c == '-' || c == '–'

/-- The `[-*•]` — the bullet class. -/
def isBullet (c : Char) : Bool := c == '-' || c == '*' || c == '•'

/-- The `[-:–]` — the name/sets separator class. -/
def isSep (c : Char) : Bool := c == '-' || c == ':' || c == '–'

/-- The `[.,]` — the decimal separator class of the weight group. -/
def isDotComma (c : Char) : Bool := c == '.' || c == ','

/-- The `[-,]` — the separator class before the rest-seconds group. -/
def isDashComma (c : Char) : Bool := c == '-' || c == ','

/-- The `[-:]` — the separator class after a `Treino`/`Rotina` label. -/
def isDashColon (c : Char) : Bool := c == '-' || c == ':'

/-- The `\s*` -/
def wsStar : RE := .star true (.cls isPySpace)

/-- The `\d+` -/
def digPlus : RE := rePlus true (.cls isDigitC)

/-- The `(?:x|×|X)` -/
def xMark : RE := .alt (.lit 'x') (.alt (.lit '×') (.lit 'X'))

/-- The `WorkoutParser.EXERCISE_PATTERN`, node for node:
`(?:^|\n)\s*[-*•]?\s*(?:\d+\.\s*)?([A-Za-zÀ-ÿ\s\(\)]+?)\s*[-:–]\s*`
`(\d+)\s*(?:x|×|X)\s*(\d+)(?:\s*-\s*(\d+))?`
`(?:\s*(?:@|com)\s*(\d+(?:[.,]\d+)?)\s*(?:kg|Kg|KG))?`
`(?:\s*[-,]\s*(\d+)\s*(?:s|seg|segundos?)?\s*(?:descanso|rest))?`. -/
def EXERCISE_PATTERN : RE := reCat [
  .alt .bol (.lit '\n'), wsStar, reOpt true (.cls isBullet), wsStar,
  reOpt true (reCat [digPlus, .lit '.', wsStar]),
  .group 1 (rePlus false (.cls isNameChar)),
  wsStar, .cls isSep, wsStar,
  .group 2 digPlus, wsStar, xMark, wsStar,
  .group 3 digPlus,
  reOpt true (reCat [wsStar, .lit '-', wsStar, .group 4 digPlus]),
  reOpt true (reCat [wsStar, .alt (.lit '@') (reStr "com"), wsStar,
    .group 5 (reCat [digPlus, reOpt true (reCat [.cls isDotComma, digPlus])]),
    wsStar, .alt (reStr "kg") (.alt (reStr "Kg") (reStr "KG"))]),
  reOpt true (reCat [wsStar, .cls isDashComma, wsStar, .group 6 digPlus,
    wsStar,
    reOpt true (.alt (.lit 's') (.alt (reStr "seg")
      (reCat [reStr "segundo", reOpt true (.lit 's')]))),
    wsStar, .alt (reStr "descanso") (reStr "rest")])
]

/-- The `WorkoutParser.SIMPLE_PATTERN`:
`(?:^|\n)\s*[-*•]?\s*(?:\d+\.\s*)?([A-Za-zÀ-ÿ\s\(\)]+?)\s*[-:–]\s*`
`(\d+)\s*(?:x|×|X)\s*(\d+)`. -/
def SIMPLE_PATTERN : RE := reCat [
  .alt .bol (.lit '\n'), wsStar, reOpt true (.cls isBullet), wsStar,
  reOpt true (reCat [digPlus, .lit '.', wsStar]),
  .group 1 (rePlus false (.cls isNameChar)),
  wsStar, .cls isSep, wsStar,
  .group 2 digPlus, wsStar, xMark, wsStar,
  .group 3 digPlus
]

/-- The `WorkoutParser.TITLE_PATTERN`:
`(?:^|\n)\s*(?:#+\s*|Treino\s*[-:]\s*|Rotina\s*[-:]\s*)([A-Za-zÀ-ÿ0-9\s\-–]+)`. -/
def TITLE_PATTERN : RE := reCat [
  .alt .bol (.lit '\n'), wsStar,
  .alt (reCat [rePlus true (.lit '#'), wsStar])
    (.alt (reCat [reStr "Treino", wsStar, .cls isDashColon, wsStar])
      (reCat [reStr "Rotina", wsStar, .cls isDashColon, wsStar])),
  .group 1 (rePlus true (.cls isTitleChar))
]

/-- The fenced-code-block pattern of `WorkoutParser.parse`
(`re.DOTALL`, case sensitive): ` ```(?:json)?\s*(\{.+?\})\s*``` `. -/
def FENCED_PATTERN : RE := reCat [
  reStr "```", reOpt true (reStr "json"), wsStar,
  .group 1 (reCat [.lit '{', rePlus false (.cls (fun _ => true)), .lit '}']),
  wsStar, reStr "```"
]

/-- The `EXERCISE_PATTERN.findall(text)` (6 groups). -/
def findallExercise (text : String) : List (List String) :=
  reFindall true EXERCISE_PATTERN 6 text

/-- The `SIMPLE_PATTERN.findall(text)` (3 groups). -/
def findallSimple (text : String) : List (List String) :=
  reFindall true SIMPLE_PATTERN 3 text

/-- The `TITLE_PATTERN.search(text)`, returning group 1. -/
def searchTitle (text : String) : Option String :=
  (reSearchAux true TITLE_PATTERN none text.data).bind
    (fun st => st.caps.lookup 1)

/-- The fenced-block `re.search` of `parse`, returning group 1. -/
def searchFenced (text : String) : Option String :=
  (reSearchAux false FENCED_PATTERN none text.data).bind
    (fun st => st.caps.lookup 1)

/-! ## Text extractor (`WorkoutParser.parse_text`) -/

/-- One `findall` result row as `parse_text` consumes it.  Rows from
`EXERCISE_PATTERN.findall` carry six strings (`""` for a group that did
not participate); rows from the `SIMPLE_PATTERN` fallback are padded by
the source with literal `None`s: `(m[0], m[1], m[2], None, None, None)`. -/
structure TRow where
  g1 : String
  g2 : String
  g3 : String
  g4 : Option String
  g5 : Option String
  g6 : Option String

/-- The `match[i] is not None and match[i] != ""` of the source. -/
def capPresent : Option String → Bool
  | none => false
  | some s => s != ""

/-- The per-match body of the `parse_text` loop: name, set count, reps or
rep range, optional weight, rest default 60, resolver call, and
`setCount` identical `SetConfig`s.  `reps = reps_start if not reps_end
else None` and `rep_range_start = reps_start if reps_end else None` are
Python truthiness tests on `reps_end`. -/
def mkTextExercise (idx : List (String × String)) (m : TRow) :
    ExerciseConfig :=
  let name := pyStrip m.g1
  let num_sets := pyIntOfDigits m.g2
  let reps_start := pyIntOfDigits m.g3
  let reps_end : Option Int :=
    if capPresent m.g4 then some (pyIntOfDigits (m.g4.getD "")) else none
  let weight : Option ℚ :=
    if capPresent m.g5 then some (pyFloat (replaceCommaDot (m.g5.getD "")))
    else none
  let rest : Int := if capPresent m.g6 then pyIntOfDigits (m.g6.getD "") else 60
  let template_id := find_exercise_id idx name
  let sets := List.replicate num_sets.toNat
    { type := "normal",
      weight_kg := weight,
      reps := if optIntTruthy reps_end then none else some reps_start,
      rep_range_start := if optIntTruthy reps_end then some reps_start
        else none,
      rep_range_end := reps_end,
      rest_seconds := none, distance_meters := none,
      duration_seconds := none : SetConfig }
  { name := name, exercise_template_id := template_id, sets := sets,
    rest_seconds := rest, notes := none, superset_id := none }

/-- The `WorkoutParser.parse_text`: title search, primary pattern, simplified
fallback, and `None` when no exercise line matched. -/
def parse_text (idx : List (String × String)) (text : String) :
    Option RoutineConfig :=
  let title := match searchTitle text with
    | some g => pyStrip g
    | none => "Treino Importado"
  let rowsE := findallExercise text
  let rows : List TRow :=
    if rowsE.isEmpty then
      (findallSimple text).map (fun r =>
        ⟨r.getD 0 "", r.getD 1 "", r.getD 2 "", none, none, none⟩)
    else
      rowsE.map (fun r =>
        ⟨r.getD 0 "", r.getD 1 "", r.getD 2 "", some (r.getD 3 ""),
          some (r.getD 4 ""), some (r.getD 5 "")⟩)
  let exercises := rows.map (mkTextExercise idx)
  if exercises.isEmpty then none
  else
    some
      { title := title, exercises := exercises, folder_id := none,
        notes := none }

/-! ## JSON extractor (`WorkoutParser.parse_json`) -/

/-- The `x.get(k)` yielding an optional int (`null` and a missing key are
`None`; a value of another runtime type would be stored as-is by Python
and fault later — modelled as an error here, see the header). -/
def jOptInt : Option Json → Except PyErr (Option Int)
  | none => .ok none
  | some Json.jnull => .ok none
  | some (Json.jint n) => .ok (some n)
  | some _ => .error .typeError

/-- The `x.get(k)` yielding an optional string. -/
def jOptStr : Option Json → Except PyErr (Option String)
  | none => .ok none
  | some Json.jnull => .ok none
  | some (Json.jstr s) => .ok (some s)
  | some _ => .error .typeError

/-- The `x.get(k)` yielding an optional number (int or non-int). -/
def jOptNum : Option Json → Except PyErr (Option ℚ)
  | none => .ok none
  | some Json.jnull => .ok none
  | some (Json.jint n) => .ok (some (n : ℚ))
  | some (Json.jnum q) => .ok (some q)
  | some _ => .error .typeError

/-- The `o.get(k, d)` required to be a string. -/
def jStrD (o : List (String × Json)) (k d : String) :
    Except PyErr String :=
  match jLookup o k with
  | none => .ok d
  | some (Json.jstr s) => .ok s
  | some _ => .error .typeError

/-- The `o.get(k, d)` required to be an int. -/
def jIntD (o : List (String × Json)) (k : String) (d : Int) :
    Except PyErr Int :=
  match jLookup o k with
  | none => .ok d
  | some (Json.jint n) => .ok n
  | some _ => .error .typeError

/-- The `o.get(k, {}).get("start") / .get("end")`: absent key defaults to an
empty dict; `.get` on a non-dict value raises `AttributeError`. -/
def jRepRange (o : List (String × Json)) (k : String) :
    Except PyErr (Option Int × Option Int) :=
  match jLookup o k with
  | none => .ok (none, none)
  | some (Json.jobj rr) => do
    let a ← jOptInt (jLookup rr "start")
    let b ← jOptInt (jLookup rr "end")
    .ok (a, b)
  | some _ => .error .attrError

/-- The `isinstance(sets_data, int)`: Python `bool` is an `int` subclass, so a
JSON boolean passes the check and acts as 1 / 0. -/
def jAsSetsInt : Json → Option Int
  | Json.jint n => some n
  | Json.jbool b => some (if b then 1 else 0)
  | _ => none

/-- One detailed-form set object of `parse_json`. -/
def mkJsonSet (s : List (String × Json)) : Except PyErr SetConfig := do
  let ty ← jStrD s "type" "normal"
  let w ← jOptNum (jLookup s "weight_kg")
  let r ← jOptInt (jLookup s "reps")
  let rr ← jRepRange s "rep_range"
  let rest ← jOptInt (jLookup s "rest_seconds")
  let dist ← jOptNum (jLookup s "distance_meters")
  let dur ← jOptInt (jLookup s "duration_seconds")
  .ok
    { type := ty, weight_kg := w, reps := r, rep_range_start := rr.1,
      rep_range_end := rr.2, rest_seconds := rest, distance_meters := dist,
      duration_seconds := dur }

/-- One exercise entry of `parse_json`: name, explicit template id `or`
resolver (Python `or`: an empty string is falsy and triggers resolution),
abbreviated (`sets` an int) or detailed (`sets` a list) form. -/
def buildExercise (idx : List (String × String)) (exJ : Json) :
    Except PyErr ExerciseConfig :=
  match exJ with
  | Json.jobj ex => do
    let name ← jStrD ex "name" ""
    let tid : Option String ←
      match jLookup ex "exercise_template_id" with
      | none => .ok (find_exercise_id idx name)
      | some Json.jnull => .ok (find_exercise_id idx name)
      | some (Json.jstr s) =>
        .ok (if s == "" then find_exercise_id idx name else some s)
      | some _ => .error .typeError
    let setsJ := (jLookup ex "sets").getD (Json.jarr [])
    let sets : List SetConfig ←
      match jAsSetsInt setsJ with
      | some n => do
        let reps : Option Int ←
          match jLookup ex "reps" with
          | none => .ok (some 10)
          | some Json.jnull => .ok none
          | some (Json.jint r) => .ok (some r)
          | some _ => .error .typeError
        let rr ← jRepRange ex "rep_range"
        let w ← jOptNum (jLookup ex "weight_kg")
        .ok (List.replicate n.toNat
          { type := "normal", weight_kg := w, reps := reps,
            rep_range_start := rr.1, rep_range_end := rr.2,
            rest_seconds := none, distance_meters := none,
            duration_seconds := none })
      | none =>
        match setsJ with
        | Json.jarr l =>
          l.mapM (fun sj =>
            match sj with
            | Json.jobj s => mkJsonSet s
            | _ => .error .attrError)
        | _ => .error .typeError
    let rest ← jIntD ex "rest_seconds" 60
    let notes ← jOptStr (jLookup ex "notes")
    let sup ← jOptInt (jLookup ex "superset_id")
    .ok
      { name := name, exercise_template_id := tid, sets := sets,
        rest_seconds := rest, notes := notes, superset_id := sup }
  | _ => .error .attrError

/-- The `WorkoutParser.parse_json` after `json.loads`: `none` stands for a
raised `JSONDecodeError` (caught, `return None`); a decoded non-object
also returns `None`; an object is converted. -/
def parse_json_decoded (idx : List (String × String)) :
    Option Json → Except PyErr (Option RoutineConfig)
  | none => .ok none
  | some (Json.jobj o) => do
    let title ← jStrD o "title" "Treino Importado"
    let notes ← jOptStr (jLookup o "notes")
    let folder ← jOptStr (jLookup o "folder_id")
    let exsJ := (jLookup o "exercises").getD (Json.jarr [])
    let exs : List ExerciseConfig ←
      match exsJ with
      | Json.jarr l => l.mapM (buildExercise idx)
      | _ => .error .typeError
    .ok
      (some
        { title := title, exercises := exs, folder_id := folder,
          notes := notes })
  | some _ => .ok none

/-- The `WorkoutParser.parse_json` with the standard-library decoder
abstracted as `loads` (`none` = `json.JSONDecodeError`). -/
def parse_json (loads : String → Option Json)
    (idx : List (String × String)) (json_str : String) :
    Except PyErr (Option RoutineConfig) :=
  parse_json_decoded idx (loads json_str)

/-! ## Format detector (`WorkoutParser.parse`) -/

/-- Python `str.startswith`. -/
def pyStartsWith (s p : String) : Bool := List.isPrefixOf p.data s.data

/-- The `WorkoutParser.parse`: strip, try JSON when the content starts with
`{`, then try a fenced JSON block, then text extraction.  A
`RoutineConfig` is always truthy in Python, so `if result:` is exactly
"the extractor returned a routine". -/
def parse (loads : String → Option Json) (idx : List (String × String))
    (content : String) : Except PyErr (Option RoutineConfig) := do
  let c := pyStrip content
  let r1 : Option RoutineConfig ←
    if pyStartsWith c "\x7b" then parse_json loads idx c
    else pure none
  match r1 with
  | some r => pure (some r)
  | none =>
    let r2 : Option RoutineConfig ←
      match searchFenced c with
      | some g => parse_json loads idx g
      | none => pure none
    match r2 with
    | some r => pure (some r)
    | none => pure (parse_text idx c)

/-! ## Validator (`WorkoutParser.validate_routine`) -/

/-- The problem strings of the source. -/
def titleMsg : String := "Título da rotina é obrigatório"

def noExercisesMsg : String := "Rotina deve ter pelo menos um exercício"

def noSetsMsg (name : String) : String :=
  "Exercício '" ++ name ++ "' não tem séries configuradas"

def missingIdsMsg (names : List String) : String :=
  "Exercícios não encontrados no Hevy: " ++ String.intercalate ", " names ++
    ". Você pode criar exercícios customizados ou verificar os nomes."

/-- The body of the `for ex in routine.exercises` loop of
`validate_routine`: collect the name when `ex.exercise_template_id` is
falsy (`None` or `""`), append the empty-sets problem when `ex.sets` is
empty. -/
def validateStep (acc : List String × List String) (ex : ExerciseConfig) :
    List String × List String :=
  let missing := if optStrTruthy ex.exercise_template_id then acc.1
    else acc.1 ++ [ex.name]
  let errs := if ex.sets.isEmpty then acc.2 ++ [noSetsMsg ex.name]
    else acc.2
  (missing, errs)

/-- The `WorkoutParser.validate_routine`: sequential accumulation exactly as
the source loop runs (missing-id collection and per-exercise empty-sets
check inside one loop, aggregate message appended last); `ok` is
`len(errors) == 0`. -/
def validate_routine (r : RoutineConfig) : Bool × List String :=
  let errors : List String := []
  let errors := if optStrTruthy (some r.title) then errors
    else errors ++ [titleMsg]
  let errors := if r.exercises.isEmpty then errors ++ [noExercisesMsg]
    else errors
  let acc := r.exercises.foldl validateStep ([], errors)
  let errors := if acc.1.isEmpty then acc.2
    else acc.2 ++ [missingIdsMsg acc.1]
  (errors.isEmpty, errors)

/-! ## Preview formatter (`format_routine_preview`) -/

/-- The per-exercise `sets_info` descriptor: `"N séries"`, overridden by
`"NxR1-R2"` (first set has a truthy rep range) or `"NxR"` (first set has
truthy scalar reps). -/
def setsInfo (ex : ExerciseConfig) : String :=
  let base := toString ex.sets.length ++ " séries"
  match ex.sets with
  | [] => base
  | fs :: _ =>
    if optIntTruthy fs.rep_range_start && optIntTruthy fs.rep_range_end then
      toString ex.sets.length ++ "x" ++ toString (fs.rep_range_start.getD 0)
        ++ "-" ++ toString (fs.rep_range_end.getD 0)
    else if optIntTruthy fs.reps then
      toString ex.sets.length ++ "x" ++ toString (fs.reps.getD 0)
    else base

/-- The `format_routine_preview`: title, optional notes, blank line, then one
numbered line per exercise with a resolved/unresolved marker. -/
def format_routine_preview (r : RoutineConfig) : String :=
  let lines := ["**" ++ r.title ++ "**"]
  let lines := if optStrTruthy r.notes then
      lines ++ ["_" ++ r.notes.getD "" ++ "_"]
    else lines
  let lines := lines ++ [""]
  let lines := lines ++ (r.exercises.enum.flatMap (fun p =>
    let i := p.1 + 1
    let ex := p.2
    let status := if optStrTruthy ex.exercise_template_id then "✅" else "⚠️"
    let line := toString i ++ ". " ++ status ++ " **" ++ ex.name ++ "** - "
      ++ setsInfo ex ++ " (" ++ toString ex.rest_seconds ++ "s descanso)"
    if optStrTruthy ex.notes then [line, "   _" ++ ex.notes.getD "" ++ "_"]
    else [line]))
  String.intercalate "\n" lines

set_option maxRecDepth 100000

/-! ## C9 — the text-extraction scenario -/

/-- Claim C9.  For the input `"- Squat: 4x6-8 @ 100kg - 90s descanso"` and
any catalog index, `parse_text` produces exactly one exercise named
`"Squat"` with 4 sets, each carrying `repRangeStart = 6`,
`repRangeEnd = 8`, no scalar reps, weight 100, and `restSeconds = 90`. -/
theorem c9_squat_scenario (idx : List (String × String)) :
    parse_text idx "- Squat: 4x6-8 @ 100kg - 90s descanso" =
      some
        { title := "Treino Importado",
          exercises :=
            [{ name := "Squat",
               exercise_template_id := find_exercise_id idx "Squat",
               sets := List.replicate 4
                 { type := "normal", weight_kg := some 100, reps := none,
                   rep_range_start := some 6, rep_range_end := some 8,
                   rest_seconds := none, distance_meters := none,
                   duration_seconds := none },
               rest_seconds := 90, notes := none, superset_id := none }],
          folder_id := none, notes := none } := rfl

/-! ## C7 — no matching line at all means `None`, not an empty routine -/

/-- Claim C7.  When neither the primary `EXERCISE_PATTERN` nor the
`SIMPLE_PATTERN` fallback matches anywhere in the text, `parse_text`
returns `None` rather than a routine with an empty exercise list. -/
theorem c7_no_match_returns_none (idx : List (String × String))
    (text : String) (hE : findallExercise text = [])
    (hS : findallSimple text = []) : parse_text idx text = none := by
  simp [parse_text, hE, hS]

/-- Claim C7 witness: free prose with no exercise line. -/
theorem c7_no_match_returns_none_witness :
    parse_text [] "nao e json nem treino" = none :=
  c7_no_match_returns_none [] "nao e json nem treino" (by decide) (by decide)

/-! ## C6 — the preview / text-extractor round-trip -/

/-- A representative routine for the round-trip property: one resolved
exercise with three sets of ten scalar reps. -/
def previewRoutine : RoutineConfig :=
  { title := "Treino A",
    exercises :=
      [{ name := "Supino", exercise_template_id := some "ex1",
         sets := List.replicate 3 { reps := some 10 },
         rest_seconds := 60 }] }

/-- Claim C6, counterexample.  The claim says parsing the Preview
Formatter's output reconstructs the exercise's set count and rep value;
for `previewRoutine` the preview line is
`"1. ✅ **Supino** - 3x10 (60s descanso)"`, and the Text Extractor
returns no routine at all from it (even with the exercise's own name in
the catalog index). -/
theorem c6_counterexample :
    parse_text [("supino", "ex1")] (format_routine_preview previewRoutine)
      = none := rfl

/-- Claim C6, amended.  The round-trip fails: the preview line places the
resolved/unresolved status marker between the numbering and the bolded
exercise name, which neither exercise pattern accepts, so for the
representative routine neither pattern matches any preview line and
`parse_text` returns `None` whatever the catalog index. -/
theorem c6_roundtrip_fails (idx : List (String × String)) :
    findallExercise (format_routine_preview previewRoutine) = [] ∧
      findallSimple (format_routine_preview previewRoutine) = [] ∧
      parse_text idx (format_routine_preview previewRoutine) = none :=
  ⟨rfl, rfl, rfl⟩

/-! ## C8 — explicit template ids in JSON entries -/

theorem except_bind_ok {ε α β : Type} (a : α) (f : α → Except ε β) :
    (Except.ok (ε := ε) a >>= f) = f a := rfl

/-- Claim C8, counterexample.  The claim says an entry that supplies an
explicit `exercise_template_id` has it used verbatim with no name
resolution; but the source combines them with Python `or`, so a supplied
*empty* id is falsy: here the entry supplies `""` and the result instead
carries the resolver's answer `"ex9"` for the entry's name. -/
theorem c8_counterexample :
    parse_json_decoded [("supino reto", "ex9")] (some (Json.jobj
      [("exercises", Json.jarr [Json.jobj
        [("name", Json.jstr "Supino Reto"),
         ("exercise_template_id", Json.jstr "")]])])) =
      .ok (some
        { title := "Treino Importado",
          exercises :=
            [{ name := "Supino Reto", exercise_template_id := some "ex9",
               sets := [], rest_seconds := 60, notes := none,
               superset_id := none }],
          folder_id := none, notes := none }) := rfl

/-- Claim C8, amended.  An entry that supplies a *non-empty* explicit
`exercise_template_id` gets it verbatim, and the catalog index (hence the
resolver) cannot influence the result: the outcome is the same for every
`idx`. -/
theorem c8_explicit_template_id (idx : List (String × String))
    (nm tid : String) (h : tid ≠ "") :
    parse_json_decoded idx (some (Json.jobj
      [("exercises", Json.jarr [Json.jobj
        [("name", Json.jstr nm), ("exercise_template_id", Json.jstr tid)]])])) =
      .ok (some
        { title := "Treino Importado",
          exercises :=
            [{ name := nm, exercise_template_id := some tid, sets := [],
               rest_seconds := 60, notes := none, superset_id := none }],
          folder_id := none, notes := none }) := by
  have hb : (tid == "") = false := by simpa using h
  simp [parse_json_decoded, buildExercise, jLookup, jStrD, jIntD, jOptStr,
    jOptInt, jRepRange, jAsSetsInt, hb, except_bind_ok, List.mapM,
    List.mapM.loop]

/-- Claim C8 witness: the id `"tpl42"` is used verbatim even though the
index would resolve the name to `"other"`. -/
theorem c8_explicit_template_id_witness :
    parse_json_decoded [("supino", "other")] (some (Json.jobj
      [("exercises", Json.jarr [Json.jobj
        [("name", Json.jstr "Supino"),
         ("exercise_template_id", Json.jstr "tpl42")]])])) =
      .ok (some
        { title := "Treino Importado",
          exercises :=
            [{ name := "Supino", exercise_template_id := some "tpl42",
               sets := [], rest_seconds := 60, notes := none,
               superset_id := none }],
          folder_id := none, notes := none }) :=
  c8_explicit_template_id [("supino", "other")] "Supino" "tpl42" (by decide)

/-! ## C4 — abbreviated integer `sets` form -/

/-- A JSON exercise entry in abbreviated form: `sets` is the integer `N`;
`reps`, `weight_kg` and `rep_range` are present exactly when the
corresponding parameter is `some`. -/
def mkAbbrevEntry (nm : String) (N : Int) (reps? : Option Int)
    (w? : Option ℚ) (rr? : Option (Int × Int)) : List (String × Json) :=
  [("name", Json.jstr nm), ("sets", Json.jint N)] ++
    (match reps? with
      | some r => [("reps", Json.jint r)]
      | none => []) ++
    (match w? with
      | some q => [("weight_kg", Json.jnum q)]
      | none => []) ++
    (match rr? with
      | some ab => [("rep_range", Json.jobj
          [("start", Json.jint ab.1), ("end", Json.jint ab.2)])]
      | none => [])

/-- Claim C4.  For every JSON exercise entry whose `sets` field is a
non-negative integer `N`, `parse_json` produces an exercise with exactly
`N` set configurations (`List.replicate N.toNat`, and `N.toNat = N`),
pairwise identical in every scalar field; when the entry has no `reps`
key each of those sets has `reps = 10`. -/
theorem c4_abbreviated_sets (idx : List (String × String)) (nm : String)
    (N : Int) (hN : 0 ≤ N) (reps? : Option Int) (w? : Option ℚ)
    (rr? : Option (Int × Int)) :
    parse_json_decoded idx (some (Json.jobj
      [("exercises", Json.jarr [Json.jobj (mkAbbrevEntry nm N reps? w? rr?)])])) =
      .ok (some
        { title := "Treino Importado",
          exercises :=
            [{ name := nm, exercise_template_id := find_exercise_id idx nm,
               sets := List.replicate N.toNat
                 { type := "normal", weight_kg := w?,
                   reps := (match reps? with
                     | some r => some r
                     | none => some 10),
                   rep_range_start := rr?.map (fun ab => ab.1),
                   rep_range_end := rr?.map (fun ab => ab.2),
                   rest_seconds := none, distance_meters := none,
                   duration_seconds := none },
               rest_seconds := 60, notes := none, superset_id := none }],
          folder_id := none, notes := none }) ∧
      ((N.toNat : Int) = N) := by
  constructor
  · rcases reps? with _ | r <;> rcases w? with _ | q <;>
      rcases rr? with _ | ⟨a, b⟩ <;> rfl
  · omega

/-- Claim C4 witness: `{"name": "Supino", "sets": 3}` (no `reps` key) gives
three identical sets of ten reps. -/
theorem c4_abbreviated_sets_witness :
    parse_json_decoded [] (some (Json.jobj
      [("exercises", Json.jarr [Json.jobj (mkAbbrevEntry "Supino" 3 none none none)])])) =
      .ok (some
        { title := "Treino Importado",
          exercises :=
            [{ name := "Supino", exercise_template_id := none,
               sets := List.replicate 3
                 { type := "normal", weight_kg := none, reps := some 10,
                   rep_range_start := none, rep_range_end := none,
                   rest_seconds := none, distance_meters := none,
                   duration_seconds := none },
               rest_seconds := 60, notes := none, superset_id := none }],
          folder_id := none, notes := none }) ∧ (((3 : Int).toNat : Int) = 3) := by
  have h := c4_abbreviated_sets [] "Supino" 3 (by norm_num) none none none
  simpa using h

/-! ## C5 — validator: total, accumulating, one aggregate problem -/

/-- The names of the exercises whose `templateId` is falsy, in routine
order. -/
def missingNames (r : RoutineConfig) : List String :=
  r.exercises.filterMap (fun ex =>
    if optStrTruthy ex.exercise_template_id then none else some ex.name)

/-- One problem string per exercise with an empty `sets` list, in routine
order. -/
def emptySetProblems (r : RoutineConfig) : List String :=
  r.exercises.filterMap (fun ex =>
    if ex.sets.isEmpty then some (noSetsMsg ex.name) else none)

theorem validateStep_foldl (exs : List ExerciseConfig) (m0 e0 : List String) :
    exs.foldl validateStep (m0, e0) =
      (m0 ++ exs.filterMap (fun ex =>
          if optStrTruthy ex.exercise_template_id then none else some ex.name),
       e0 ++ exs.filterMap (fun ex =>
          if ex.sets.isEmpty then some (noSetsMsg ex.name) else none)) := by
  induction exs generalizing m0 e0 with
  | nil => simp
  | cons ex t ih =>
    simp only [List.foldl_cons, List.filterMap_cons, validateStep]
    by_cases h1 : optStrTruthy ex.exercise_template_id <;>
      by_cases h2 : ex.sets.isEmpty <;>
        simp [h1, h2, ih, List.append_assoc]

/-- Claim C5.  `validate_routine` is a total function (it cannot raise);
its problem list decomposes into the four independent checks — title,
at-least-one-exercise, one problem per exercise with no sets, and, when
any exercise lacks a template id, exactly one aggregate problem placed
last that lists all the missing exercise names; `ok` is `true` iff the
problem list is empty. -/
theorem c5_validator_accumulates (r : RoutineConfig) :
    (validate_routine r).2 =
      (if optStrTruthy (some r.title) then [] else [titleMsg]) ++
      (if r.exercises.isEmpty then [noExercisesMsg] else []) ++
      emptySetProblems r ++
      (if (missingNames r).isEmpty then []
        else [missingIdsMsg (missingNames r)]) ∧
    (validate_routine r).1 = (validate_routine r).2.isEmpty ∧
    ((validate_routine r).1 = true ↔ (validate_routine r).2 = []) := by
  refine ⟨?_, rfl, ?_⟩
  · by_cases ht : optStrTruthy (some r.title) <;>
      by_cases he : r.exercises.isEmpty <;>
        (simp [validate_routine, validateStep_foldl, missingNames,
          emptySetProblems, ht, he]) <;>
        (try split) <;> simp_all
  · cases h : (validate_routine r).2 <;> simp [validate_routine] at h ⊢ <;>
      simp [h]

/-! ## C2 — JSON extraction failure and the fall-through to text -/

/-- A decode outcome on which JSON extraction fails in the sense of the
source's two guards: `json.loads` raised (`none`), or the decoded top
level is not an object. -/
def notObjDecode : Option Json → Bool
  | some (Json.jobj _) => false
  | _ => true

/-- Claim C2, counterexample.  The claim also counts "a top-level object
lacking the expected routine shape" as a failure that returns `None` and
falls through to text extraction; but for the input `"{}"` — a valid
top-level object with no routine keys — `parse_json` returns a routine
with the default title and an empty exercise list, and `parse` returns it
instead of falling through (text extraction of `"{}"` would yield
`None`). -/
theorem c2_counterexample :
    parse_json_decoded [] (some (Json.jobj [])) =
      .ok (some
        { title := "Treino Importado", exercises := [],
          folder_id := none, notes := none }) ∧
    parse (fun s => if s == "\x7b\x7d" then some (Json.jobj []) else none) []
        "\x7b\x7d" =
      .ok (some
        { title := "Treino Importado", exercises := [],
          folder_id := none, notes := none }) ∧
    parse_text [] "\x7b\x7d" = none := ⟨rfl, rfl, rfl⟩

/-- Claim C2, amended.  For every input whose JSON extraction fails in the
remaining senses — `json.loads` raises, or the decoded top level is not
an object — and whose fenced block (if any) fails the same way,
`parse_json` returns `None` with no exception and `parse` falls through
to text extraction of the stripped content. -/
theorem c2_json_failure_falls_through (loads : String → Option Json)
    (idx : List (String × String)) (content : String)
    (h1 : notObjDecode (loads (pyStrip content)) = true)
    (h2 : ∀ g, searchFenced (pyStrip content) = some g →
      notObjDecode (loads g) = true) :
    parse loads idx content = .ok (parse_text idx (pyStrip content)) ∧
      parse_json loads idx (pyStrip content) = .ok none := by
  have key : ∀ (o : Option Json), notObjDecode o = true →
      parse_json_decoded idx o = .ok none := by
    intro o ho
    match o with
    | none => rfl
    | some Json.jnull => rfl
    | some (Json.jbool b) => rfl
    | some (Json.jint n) => rfl
    | some (Json.jnum q) => rfl
    | some (Json.jstr s) => rfl
    | some (Json.jarr l) => rfl
    | some (Json.jobj l) => simp [notObjDecode] at ho
  have hpj : parse_json loads idx (pyStrip content) = .ok none := key _ h1
  refine ⟨?_, hpj⟩
  unfold parse
  have hok : ∀ (a : Option RoutineConfig),
      (pure a : Except PyErr (Option RoutineConfig)) = Except.ok a :=
    fun a => rfl
  by_cases hs : pyStartsWith (pyStrip content) "\x7b" <;>
    cases hf : searchFenced (pyStrip content) <;>
      first
        | (simp [hs, hf, hpj, except_bind_ok, hok]; done)
        | (rename_i g
           have hg : parse_json loads idx g = .ok none := key _ (h2 g hf)
           simp [hs, hf, hpj, hg, except_bind_ok, hok])

/-- Claim C2 witness: with a decoder that always fails (malformed JSON),
`parse` of an exercise line falls through to text extraction and
`parse_json` returns `None`. -/
theorem c2_json_failure_falls_through_witness :
    parse (fun _ => none) [] "Supino Reto: 3x10" =
      .ok (parse_text [] (pyStrip "Supino Reto: 3x10")) ∧
      parse_json (fun _ => none) [] (pyStrip "Supino Reto: 3x10") = .ok none :=
  c2_json_failure_falls_through (fun _ => none) [] "Supino Reto: 3x10" rfl
    (fun g hg => by
      rw [show searchFenced (pyStrip "Supino Reto: 3x10") = none from rfl] at hg
      cases hg)
